import Mathlib

/-!
Verification of the MSP-to-MassBank converter (stebantolib).

This file gives a shallow embedding of the two core subsystems of the
repository and proves/refutes the frozen claims about them:

* the MSP record-boundary parser, `MSPParser.parse_lines`
  (src/parsers/msp_parser.py) and the legacy `parse_custom_msp`
  (src/msp_to_lib.py);
* the classification resolver, `ClassificationService`
  (src/stebantolib/classifiers/classyfire.py), with its cache, retry and
  provider-fallback logic, over an explicit model of the HTTP world.

Modelling conventions:

* Python string operations (`strip`, `split`, `upper`, `replace`, `in`)
  are implemented structurally over `List Char` so that all definitions
  evaluate inside the kernel.
* Python `float` values are abstracted as a type parameter `F`: none of
  the properties under study depends on floating-point arithmetic, only
  on whether `float(...)` succeeds, which is modelled by a parameter
  `pyFloat : String → Option F` (`none` models the raised `ValueError`).
  Likewise `pyInt : String → Option Int` models `int(...)`.
-/

namespace Steban

/-! ## Python-string helpers (structural, kernel-evaluable) -/

/-- Trim ASCII whitespace from both ends: Python `s.strip()`. -/
def pyStrip (s : String) : String :=
  ⟨((s.data.dropWhile Char.isWhitespace).reverse.dropWhile Char.isWhitespace).reverse⟩

/-- Split at the first occurrence of `c`; `none` when absent. -/
def splitAtFirstChar (c : Char) : List Char → Option (List Char × List Char)
  | [] => none
  | x :: xs =>
    if x = c then some ([], xs)
    else (splitAtFirstChar c xs).map (fun p => (x :: p.1, p.2))

/-- Python `s.split(':', 1)`: split at the first colon.  Returns `none`
when the string has no colon (the `':' in stripped_line` test fails). -/
def splitFirstColon (s : String) : Option (String × String) :=
  (splitAtFirstChar ':' s.data).map (fun p => (⟨p.1⟩, ⟨p.2⟩))

/-- Python `s.replace(' ', '_')` (single-character pattern). -/
def pyReplaceSpace (s : String) : String :=
  ⟨s.data.map (fun c => if c = ' ' then '_' else c)⟩

/-- Python `s.upper()` (ASCII). -/
def pyUpper (s : String) : String := ⟨s.data.map Char.toUpper⟩

/-- Python `s.lower()` (ASCII). -/
def pyLower (s : String) : String := ⟨s.data.map Char.toLower⟩

/-- Whitespace split helper: accumulate the current token (reversed). -/
def splitWsAux : List Char → List Char → List String
  | [], acc => if acc.isEmpty then [] else [⟨acc.reverse⟩]
  | c :: cs, acc =>
    if c.isWhitespace then
      if acc.isEmpty then splitWsAux cs [] else ⟨acc.reverse⟩ :: splitWsAux cs []
    else splitWsAux cs (c :: acc)

/-- Python `s.split()` with no argument: split on whitespace runs,
dropping empty tokens. -/
def pySplitWhitespace (s : String) : List String := splitWsAux s.data []

/-- Does `s` start with `pre`? (Python `s.startswith(pre)`.) -/
def charsHasPrefix : List Char → List Char → Bool
  | _, [] => true
  | [], _ :: _ => false
  | c :: cs, p :: ps => c = p && charsHasPrefix cs ps

def pyStartsWith (s pre : String) : Bool := charsHasPrefix s.data pre.data

/-- Substring test, Python `sub in s`. -/
def charsContains : List Char → List Char → Bool
  | [], sub => sub.isEmpty
  | s@(_ :: cs), sub => charsHasPrefix s sub || charsContains cs sub

def strContains (s sub : String) : Bool := charsContains s.data sub.data

/-- Decimal digit list to `Nat`; `none` if empty or a non-digit occurs. -/
def digitsToNat? : List Char → Option Nat
  | [] => none
  | cs =>
    if cs.all Char.isDigit then
      some (cs.foldl (fun n c => n * 10 + (c.toNat - '0'.toNat)) 0)
    else none

/-- Decimal representation of a `Nat` (structural, via a fuel bound). -/
def natDigitsAux : Nat → Nat → List Char
  | 0, _ => []
  | _ + 1, 0 => []
  | fuel + 1, n => natDigitsAux fuel (n / 10) ++ [Char.ofNat ('0'.toNat + n % 10)]

def natRepr (n : Nat) : String :=
  if n = 0 then "0" else ⟨natDigitsAux (n + 1) n⟩

/-- A simple concrete model of Python `int(...)` on already-stripped
text: plain decimal digits.  Used to instantiate witnesses; the parser
theorems are proved for arbitrary conversion functions. -/
def pyIntSimple (s : String) : Option Int :=
  (digitsToNat? s.data).map Int.ofNat

/-- A simple concrete model of the domain of Python `float(...)`:
decimal digits with an optional fractional part; the "value" kept is the
token text itself, since no claim depends on float arithmetic.  Used to
instantiate witnesses at `F := String`. -/
def pyFloatShape (s : String) : Option String :=
  match splitAtFirstChar '.' s.data with
  | none => (digitsToNat? s.data).map (fun _ => s)
  | some (a, b) =>
    match digitsToNat? a, digitsToNat? b with
    | some _, some _ => some s
    | _, _ => none

/-! ## MSPParser (src/parsers/msp_parser.py) -/

/-- The mutable `current_data` dict of `MSPParser.parse_lines`.  Its keys
are always drawn from the target names of `FIELD_PARSERS`, so it is
represented as the record of optional typed fields of the `MSPRecord`
dataclass (a field is `none` exactly when the key is absent from the
dict).  `F` is the abstracted float domain. -/
structure FieldData (F : Type) where
  charge : Option Int := none
  ion_mode : Option String := none
  smiles : Option String := none
  inchi : Option String := none
  pubmed : Option String := none
  ccs : Option F := none
  col_energy1 : Option F := none
  col_energy2 : Option F := none
  ms_level : Option Int := none
  instrument_type : Option String := none
  compound_name : Option String := none
  precursor_mz : Option F := none
  inchikey : Option String := none
  num_peaks : Option Int := none
deriving Repr, DecidableEq

/-- Python dict truthiness of `current_data`: the dict is empty iff no
field has been set since the last flush. -/
def FieldData.isEmpty {F : Type} (d : FieldData F) : Bool :=
  d.charge.isNone && d.ion_mode.isNone && d.smiles.isNone && d.inchi.isNone &&
  d.pubmed.isNone && d.ccs.isNone && d.col_energy1.isNone && d.col_energy2.isNone &&
  d.ms_level.isNone && d.instrument_type.isNone && d.compound_name.isNone &&
  d.precursor_mz.isNone && d.inchikey.isNone && d.num_peaks.isNone

/-- The `MSPRecord` dataclass: a peak list plus the optional fields. -/
structure MSPRecord (F : Type) where
  peaks : List (F × F)
  fields : FieldData F
deriving Repr, DecidableEq

/-- Warnings printed by `MSPParser.parse_lines`.  The only reachable print
site is the field-conversion failure at lines 95-96 of msp_parser.py
(the `TypeError` print inside `flush_record` is unreachable because every
key stored in `current_data` is a valid `MSPRecord` parameter). -/
inductive ParseWarning where
  | couldNotParse (fieldName value : String)
deriving Repr, DecidableEq

/-- The loop state of `MSPParser.parse_lines`: accumulators plus the
output list and the warnings printed so far. -/
structure ParseState (F : Type) where
  current_data : FieldData F
  current_peaks : List (F × F)
  records : List (MSPRecord F)
  warnings : List ParseWarning
deriving Repr, DecidableEq

def initParseState {F : Type} : ParseState F :=
  { current_data := {}, current_peaks := [], records := [], warnings := [] }

/-- `flush_record` (msp_parser.py lines 65-76): append a record only when
both accumulators are non-empty, then reset both.  No warning is ever
emitted here. -/
def flush_record {F : Type} (st : ParseState F) : ParseState F :=
  let records :=
    if !st.current_data.isEmpty && !st.current_peaks.isEmpty then
      st.records ++ [{ peaks := st.current_peaks, fields := st.current_data }]
    else
      st.records
  { st with current_data := {}, current_peaks := [], records := records }

/-- The `FIELD_PARSERS` table: for a cleaned field name, `none` means the
name is not recognized; `some none` means the name is recognized but the
typed conversion of the value raised; `some (some f)` gives the update of
`current_data`. -/
def fieldAssign {F : Type} (pyInt : String → Option Int) (pyFloat : String → Option F)
    (clean value : String) : Option (Option (FieldData F → FieldData F)) :=
  match clean with
  | "CHARGE" => some ((pyInt value).map (fun v d => { d with charge := some v }))
  | "IONMODE" => some (some (fun d => { d with ion_mode := some (pyUpper value) }))
  | "SMILES" => some (some (fun d => { d with smiles := some value }))
  | "INCHI" => some (some (fun d => { d with inchi := some value }))
  | "PUBMED" => some (some (fun d => { d with pubmed := some value }))
  | "CCS" => some ((pyFloat value).map (fun v d => { d with ccs := some v }))
  | "COL_ENERGY1" => some ((pyFloat value).map (fun v d => { d with col_energy1 := some v }))
  | "COL_ENERGY2" => some ((pyFloat value).map (fun v d => { d with col_energy2 := some v }))
  | "MS_LEVEL" => some ((pyInt value).map (fun v d => { d with ms_level := some v }))
  | "INSTRUMENT_TYPE" => some (some (fun d => { d with instrument_type := some value }))
  | "COMPOUND_NAME" => some (some (fun d => { d with compound_name := some value }))
  | "PRECURSOR_MZ" => some ((pyFloat value).map (fun v d => { d with precursor_mz := some v }))
  | "INCHIKEY" => some (some (fun d => { d with inchikey := some value }))
  | "NUM_PEAKS" => some ((pyInt value).map (fun v d => { d with num_peaks := some v }))
  | _ => none

/-- Lines 91-96 of msp_parser.py: look the cleaned name up in
`FIELD_PARSERS`; on conversion failure print the warning and leave the
field absent; unrecognized names are ignored silently. -/
def applyFieldParsers {F : Type} (pyInt : String → Option Int) (pyFloat : String → Option F)
    (d : FieldData F) (fieldName clean value : String) : FieldData F × List ParseWarning :=
  match fieldAssign pyInt pyFloat clean value with
  | none => (d, [])
  | some none => (d, [.couldNotParse fieldName value])
  | some (some f) => (f d, [])

/-- Peak-line parse (lines 99-104): exactly two whitespace-separated
tokens, both converting as floats; anything else raises `ValueError` and
the line is skipped silently. -/
def parsePeak {F : Type} (pyFloat : String → Option F) (stripped : String) :
    Option (F × F) :=
  match pySplitWhitespace stripped with
  | [a, b] =>
    match pyFloat a, pyFloat b with
    | some x, some y => some (x, y)
    | _, _ => none
  | _ => none

/-- The classification of one input line performed by the loop body of
`parse_lines` (lines 78-104): blank, field line (with original stripped
name, cleaned name and stripped value), parseable peak line, or skipped
junk. -/
inductive LineClass (F : Type) where
  | blank
  | fieldLine (fieldName clean value : String)
  | peakLine (pk : F × F)
  | junk
deriving Repr

def classifyLine {F : Type} (pyFloat : String → Option F) (line : String) : LineClass F :=
  let stripped := pyStrip line
  if stripped = "" then .blank
  else
    match splitFirstColon stripped with
    | some (rawName, rawValue) =>
      let fieldName := pyStrip rawName
      .fieldLine fieldName (pyUpper (pyReplaceSpace fieldName)) (pyStrip rawValue)
    | none =>
      match parsePeak pyFloat stripped with
      | some pk => .peakLine pk
      | none => .junk

/-- One iteration of the `for line in lines` loop of `parse_lines`. -/
def parseLineStep {F : Type} (pyInt : String → Option Int) (pyFloat : String → Option F)
    (st : ParseState F) (line : String) : ParseState F :=
  match classifyLine pyFloat line with
  | .blank => st
  | .junk => st
  | .peakLine pk => { st with current_peaks := st.current_peaks ++ [pk] }
  | .fieldLine fieldName clean value =>
    let st1 := if clean == "CHARGE" then flush_record st else st
    let p := applyFieldParsers pyInt pyFloat st1.current_data fieldName clean value
    { st1 with current_data := p.1, warnings := st1.warnings ++ p.2 }

/-- `MSPParser.parse_lines` (msp_parser.py lines 58-109): fold the loop
body over the lines, flush the last accumulator, and return the records
together with the warnings printed along the way. -/
def parse_lines {F : Type} (pyInt : String → Option Int) (pyFloat : String → Option F)
    (lines : List String) : List (MSPRecord F) × List ParseWarning :=
  let st := flush_record (lines.foldl (parseLineStep pyInt pyFloat) initParseState)
  (st.records, st.warnings)

example :
    parse_lines pyIntSimple pyFloatShape
      ["CHARGE: 1", "COMPOUND_NAME: TestMol", "100.0 50.0", "200.0 999.0", "CHARGE: 1"] =
    ([{ peaks := [("100.0", "50.0"), ("200.0", "999.0")],
        fields := { charge := some 1, compound_name := some "TestMol" } }],
      []) := by
  decide

example : parse_lines pyIntSimple pyFloatShape ["100.0 50.0"] = ([], []) := by
  decide

example :
    parse_lines pyIntSimple pyFloatShape ["CHARGE: x", "100.0 50.0"] =
      ([], [.couldNotParse "CHARGE" "x"]) := by
  decide

/-! ### Line predicates and CHARGE-delimited segmentation -/

/-- Is this line a field line whose cleaned name is the `CHARGE` boundary
marker (the flush trigger at line 88 of msp_parser.py)? -/
def isChargeLine {F : Type} (pyFloat : String → Option F) (l : String) : Bool :=
  match classifyLine pyFloat l with
  | .fieldLine _ clean _ => clean == "CHARGE"
  | _ => false

/-- Does the recognized-field conversion of this line succeed (so that it
inserts a key into `current_data`)? -/
def isGoodFieldLine {F : Type} (pyInt : String → Option Int) (pyFloat : String → Option F)
    (l : String) : Bool :=
  match classifyLine pyFloat l with
  | .fieldLine _ clean value =>
    match fieldAssign pyInt pyFloat clean value with
    | some (some _) => true
    | _ => false
  | _ => false

/-- Is this line a parseable peak line? -/
def isPeakLine {F : Type} (pyFloat : String → Option F) (l : String) : Bool :=
  match classifyLine pyFloat l with
  | .peakLine _ => true
  | _ => false

/-- Split the input into CHARGE-delimited segments: a new segment starts
at every line whose cleaned field name is `CHARGE` (that line belongs to
the segment it opens); the leading segment collects the lines before the
first marker. -/
def splitSegsFrom {F : Type} (pyFloat : String → Option F) (cur : List String) :
    List String → List (List String)
  | [] => [cur]
  | l :: ls =>
    if isChargeLine pyFloat l then cur :: splitSegsFrom pyFloat [l] ls
    else splitSegsFrom pyFloat (cur ++ [l]) ls

def splitSegments {F : Type} (pyFloat : String → Option F) (lines : List String) :
    List (List String) :=
  splitSegsFrom pyFloat [] lines

/-- A segment that yields an emitted record: at least one successfully
parsed recognized field and at least one parseable peak line. -/
def segGood {F : Type} (pyInt : String → Option Int) (pyFloat : String → Option F)
    (seg : List String) : Bool :=
  seg.any (isGoodFieldLine pyInt pyFloat) && seg.any (isPeakLine pyFloat)

/-- Modelled from the claim wording of C6: the number of CHARGE-delimited
segments that contain at least one parseable peak line (regardless of
fields).  Compared against the number of records the source code emits. -/
def claimSegmentsWithPeakCount {F : Type} (pyFloat : String → Option F)
    (lines : List String) : Nat :=
  ((splitSegments pyFloat lines).filter (fun seg => seg.any (isPeakLine pyFloat))).length

/-- The warnings contributed by a single line: exactly the
conversion-failure warning of a recognized field line. -/
def lineWarnings {F : Type} (pyInt : String → Option Int) (pyFloat : String → Option F)
    (l : String) : List ParseWarning :=
  match classifyLine pyFloat l with
  | .fieldLine n clean v =>
    match fieldAssign pyInt pyFloat clean v with
    | some none => [.couldNotParse n v]
    | _ => []
  | _ => []

/-- The per-field conversion-failure warnings of a whole input. -/
def specWarnings {F : Type} (pyInt : String → Option Int) (pyFloat : String → Option F)
    (lines : List String) : List ParseWarning :=
  (lines.map (lineWarnings pyInt pyFloat)).flatten

/-! ### Parser lemmas -/

lemma default_fieldData_isEmpty {F : Type} : (({} : FieldData F)).isEmpty = true := rfl

lemma fieldData_isEmpty_eq_default {F : Type} (d : FieldData F) (h : d.isEmpty = true) :
    d = {} := by
  cases d
  unfold FieldData.isEmpty at h
  simp only [Bool.and_eq_true, Option.isNone_iff_eq_none] at h
  obtain ⟨⟨⟨⟨⟨⟨⟨⟨⟨⟨⟨⟨⟨h1, h2⟩, h3⟩, h4⟩, h5⟩, h6⟩, h7⟩, h8⟩, h9⟩, h10⟩, h11⟩, h12⟩, h13⟩, h14⟩ := h
  subst h1 h2 h3 h4 h5 h6 h7 h8 h9 h10 h11 h12 h13 h14
  rfl

lemma fieldAssign_hit_isEmpty {F : Type} (pyInt : String → Option Int)
    (pyFloat : String → Option F) (clean value : String) (f : FieldData F → FieldData F)
    (h : fieldAssign pyInt pyFloat clean value = some (some f)) (d : FieldData F) :
    (f d).isEmpty = false := by
  unfold fieldAssign at h
  split at h <;>
    first
      | (simp only [Option.some.injEq] at h
         first
           | (rcases Option.map_eq_some'.mp h with ⟨v, -, rfl⟩
              simp [FieldData.isEmpty])
           | (subst h; simp [FieldData.isEmpty]))
      | simp at h

/-- `applyFieldParsers` leaves the dict empty iff it was empty and the
line did not insert a field. -/
lemma applyFieldParsers_isEmpty {F : Type} (pyInt : String → Option Int)
    (pyFloat : String → Option F) (d : FieldData F) (n clean v : String) :
    (applyFieldParsers pyInt pyFloat d n clean v).1.isEmpty =
      (d.isEmpty &&
        !(match fieldAssign pyInt pyFloat clean v with
          | some (some _) => true
          | _ => false)) := by
  unfold applyFieldParsers
  cases h : fieldAssign pyInt pyFloat clean v with
  | none => simp
  | some o =>
    cases o with
    | none => simp
    | some f => simp [fieldAssign_hit_isEmpty pyInt pyFloat clean v f h d]

lemma applyFieldParsers_warnings {F : Type} (pyInt : String → Option Int)
    (pyFloat : String → Option F) (d : FieldData F) (n clean v : String) :
    (applyFieldParsers pyInt pyFloat d n clean v).2 =
      (match fieldAssign pyInt pyFloat clean v with
        | some none => [ParseWarning.couldNotParse n v]
        | _ => []) := by
  unfold applyFieldParsers
  cases h : fieldAssign pyInt pyFloat clean v with
  | none => simp
  | some o => cases o <;> simp

lemma flush_record_preserves_peaks {F : Type} (st : ParseState F)
    (h : ∀ r ∈ st.records, r.peaks ≠ []) :
    ∀ r ∈ (flush_record st).records, r.peaks ≠ [] := by
  intro r hr
  unfold flush_record at hr
  simp only at hr
  split at hr
  case isTrue hcond =>
    rcases List.mem_append.mp hr with hmem | hmem
    · exact h r hmem
    · rcases List.mem_singleton.mp hmem with rfl
      simp only [Bool.and_eq_true, Bool.not_eq_true'] at hcond
      show st.current_peaks ≠ []
      intro hnil
      rw [hnil] at hcond
      simp at hcond
  case isFalse => exact h r hr

lemma flush_record_warnings {F : Type} (st : ParseState F) :
    (flush_record st).warnings = st.warnings := rfl

lemma flush_record_length {F : Type} (st : ParseState F) :
    (flush_record st).records.length =
      st.records.length +
        (if !st.current_data.isEmpty && !st.current_peaks.isEmpty then 1 else 0) := by
  unfold flush_record
  split <;> simp

/-- Main fold invariant: starting from a state whose accumulators reflect
a partially read segment `cur`, the number of records emitted by the rest
of the run is the number of remaining good segments. -/
lemma parse_count_invariant {F : Type} (pyInt : String → Option Int)
    (pyFloat : String → Option F) (ls : List String) :
    ∀ (st : ParseState F) (cur : List String),
    st.current_data.isEmpty = !(cur.any (isGoodFieldLine pyInt pyFloat)) →
    st.current_peaks.isEmpty = !(cur.any (isPeakLine pyFloat)) →
    (flush_record (ls.foldl (parseLineStep pyInt pyFloat) st)).records.length
      = st.records.length +
        ((splitSegsFrom pyFloat cur ls).filter (segGood pyInt pyFloat)).length := by
  induction ls with
  | nil =>
    intro st cur hd hp
    simp only [List.foldl_nil]
    rw [flush_record_length]
    show _ = st.records.length + (List.filter (segGood pyInt pyFloat) [cur]).length
    rw [hd, hp]
    simp only [Bool.not_not, List.filter, segGood]
    cases hg : cur.any (isGoodFieldLine pyInt pyFloat) <;>
      cases hpk : cur.any (isPeakLine pyFloat) <;> simp
  | cons l ls ih =>
    intro st cur hd hp
    rw [List.foldl_cons]
    cases hcl : classifyLine pyFloat l with
    | blank =>
      have hstep : parseLineStep pyInt pyFloat st l = st := by
        unfold parseLineStep; rw [hcl]
      have hch : isChargeLine pyFloat l = false := by unfold isChargeLine; rw [hcl]
      have hgf : isGoodFieldLine pyInt pyFloat l = false := by
        unfold isGoodFieldLine; rw [hcl]
      have hpk : isPeakLine pyFloat l = false := by unfold isPeakLine; rw [hcl]
      rw [hstep]
      unfold splitSegsFrom
      rw [hch]
      simp only [Bool.false_eq_true, if_false]
      exact ih st (cur ++ [l]) (by simp [List.any_append, hgf, hd])
        (by simp [List.any_append, hpk, hp])
    | junk =>
      have hstep : parseLineStep pyInt pyFloat st l = st := by
        unfold parseLineStep; rw [hcl]
      have hch : isChargeLine pyFloat l = false := by unfold isChargeLine; rw [hcl]
      have hgf : isGoodFieldLine pyInt pyFloat l = false := by
        unfold isGoodFieldLine; rw [hcl]
      have hpk : isPeakLine pyFloat l = false := by unfold isPeakLine; rw [hcl]
      rw [hstep]
      unfold splitSegsFrom
      rw [hch]
      simp only [Bool.false_eq_true, if_false]
      exact ih st (cur ++ [l]) (by simp [List.any_append, hgf, hd])
        (by simp [List.any_append, hpk, hp])
    | peakLine pk =>
      have hstep : parseLineStep pyInt pyFloat st l =
          { st with current_peaks := st.current_peaks ++ [pk] } := by
        unfold parseLineStep; rw [hcl]
      have hch : isChargeLine pyFloat l = false := by unfold isChargeLine; rw [hcl]
      have hgf : isGoodFieldLine pyInt pyFloat l = false := by
        unfold isGoodFieldLine; rw [hcl]
      have hpk : isPeakLine pyFloat l = true := by unfold isPeakLine; rw [hcl]
      rw [hstep]
      unfold splitSegsFrom
      rw [hch]
      simp only [Bool.false_eq_true, if_false]
      exact ih _ (cur ++ [l]) (by simp [List.any_append, hgf, hd])
        (by simp [List.any_append, hpk])
    | fieldLine n c v =>
      have hgf : isGoodFieldLine pyInt pyFloat l =
          (match fieldAssign pyInt pyFloat c v with
            | some (some _) => true | _ => false) := by
        unfold isGoodFieldLine; rw [hcl]
      have hpkl : isPeakLine pyFloat l = false := by unfold isPeakLine; rw [hcl]
      have hch : isChargeLine pyFloat l = (c == "CHARGE") := by
        unfold isChargeLine; rw [hcl]
      by_cases hc : c = "CHARGE"
      · -- boundary line: flush, then start a new segment with this line
        subst hc
        have hstep : parseLineStep pyInt pyFloat st l =
            { flush_record st with
              current_data :=
                (applyFieldParsers pyInt pyFloat (flush_record st).current_data n "CHARGE" v).1,
              warnings := (flush_record st).warnings ++
                (applyFieldParsers pyInt pyFloat (flush_record st).current_data n "CHARGE" v).2 } := by
          unfold parseLineStep
          rw [hcl]
          simp only [beq_self_eq_true, if_true]
        rw [hstep]
        unfold splitSegsFrom
        rw [hch]
        simp only [beq_self_eq_true, if_true]
        have hfd : (flush_record st).current_data = {} := rfl
        have hfp : (flush_record st).current_peaks = [] := rfl
        rw [ih _ [l]
          (by
            rw [applyFieldParsers_isEmpty, hfd, default_fieldData_isEmpty]
            simp [List.any_cons, hgf])
          (by simp [hfp, List.any_cons, hpkl])]
        have hrec : (flush_record st).records.length =
            st.records.length + (if segGood pyInt pyFloat cur then 1 else 0) := by
          rw [flush_record_length, hd, hp]
          simp [segGood, Bool.not_not]
        rw [hrec]
        show _ = st.records.length +
          (List.filter (segGood pyInt pyFloat)
            (cur :: splitSegsFrom pyFloat [l] ls)).length
        simp only [List.filter]
        cases hcg : segGood pyInt pyFloat cur <;> (simp; try omega)
      · have hstep : parseLineStep pyInt pyFloat st l =
            { st with
              current_data := (applyFieldParsers pyInt pyFloat st.current_data n c v).1,
              warnings := st.warnings ++
                (applyFieldParsers pyInt pyFloat st.current_data n c v).2 } := by
          unfold parseLineStep
          rw [hcl]
          simp only [beq_iff_eq, hc, if_false]
        rw [hstep]
        unfold splitSegsFrom
        rw [hch]
        simp only [beq_iff_eq, hc, if_false]
        exact ih _ (cur ++ [l])
          (by
            rw [applyFieldParsers_isEmpty, hd]
            simp only [List.any_append, List.any_cons, List.any_nil, hgf,
              Bool.or_false, Bool.not_or]
            try rfl)
          (by simp [List.any_append, hpkl, hp])

/-- The warnings of a run are exactly the per-field conversion failures. -/
lemma parse_warnings_invariant {F : Type} (pyInt : String → Option Int)
    (pyFloat : String → Option F) (ls : List String) :
    ∀ (st : ParseState F),
    (flush_record (ls.foldl (parseLineStep pyInt pyFloat) st)).warnings
      = st.warnings ++ specWarnings pyInt pyFloat ls := by
  induction ls with
  | nil =>
    intro st
    simp [flush_record_warnings, specWarnings]
  | cons l ls ih =>
    intro st
    rw [List.foldl_cons]
    have hspec : specWarnings pyInt pyFloat (l :: ls) =
        lineWarnings pyInt pyFloat l ++ specWarnings pyInt pyFloat ls := by
      simp [specWarnings]
    rw [hspec]
    cases hcl : classifyLine pyFloat l with
    | blank =>
      have hstep : parseLineStep pyInt pyFloat st l = st := by
        unfold parseLineStep; rw [hcl]
      have hlw : lineWarnings pyInt pyFloat l = [] := by unfold lineWarnings; rw [hcl]
      rw [hstep, ih, hlw, List.nil_append]
    | junk =>
      have hstep : parseLineStep pyInt pyFloat st l = st := by
        unfold parseLineStep; rw [hcl]
      have hlw : lineWarnings pyInt pyFloat l = [] := by unfold lineWarnings; rw [hcl]
      rw [hstep, ih, hlw, List.nil_append]
    | peakLine pk =>
      have hstep : parseLineStep pyInt pyFloat st l =
          { st with current_peaks := st.current_peaks ++ [pk] } := by
        unfold parseLineStep; rw [hcl]
      have hlw : lineWarnings pyInt pyFloat l = [] := by unfold lineWarnings; rw [hcl]
      rw [hstep, ih, hlw, List.nil_append]
    | fieldLine n c v =>
      have hlw : lineWarnings pyInt pyFloat l =
          (match fieldAssign pyInt pyFloat c v with
            | some none => [ParseWarning.couldNotParse n v] | _ => []) := by
        unfold lineWarnings; rw [hcl]
      by_cases hc : c = "CHARGE"
      · have hstep : parseLineStep pyInt pyFloat st l =
            { flush_record st with
              current_data :=
                (applyFieldParsers pyInt pyFloat (flush_record st).current_data n c v).1,
              warnings := (flush_record st).warnings ++
                (applyFieldParsers pyInt pyFloat (flush_record st).current_data n c v).2 } := by
          unfold parseLineStep
          rw [hcl]
          simp only [hc, beq_self_eq_true, if_true]
        rw [hstep, ih]
        show ((flush_record st).warnings ++ _) ++ _ = _
        rw [flush_record_warnings, applyFieldParsers_warnings, hlw, List.append_assoc]
      · have hstep : parseLineStep pyInt pyFloat st l =
            { st with
              current_data := (applyFieldParsers pyInt pyFloat st.current_data n c v).1,
              warnings := st.warnings ++
                (applyFieldParsers pyInt pyFloat st.current_data n c v).2 } := by
          unfold parseLineStep
          rw [hcl]
          simp only [beq_iff_eq, hc, if_false]
        rw [hstep, ih]
        show (st.warnings ++ _) ++ _ = _
        rw [applyFieldParsers_warnings, hlw, List.append_assoc]

/-- Records accumulated by the fold always have non-empty peak lists. -/
lemma parse_fold_peaks {F : Type} (pyInt : String → Option Int)
    (pyFloat : String → Option F) (ls : List String) :
    ∀ (st : ParseState F), (∀ r ∈ st.records, r.peaks ≠ []) →
    ∀ r ∈ (flush_record (ls.foldl (parseLineStep pyInt pyFloat) st)).records, r.peaks ≠ [] := by
  induction ls with
  | nil =>
    intro st h
    simp only [List.foldl_nil]
    exact flush_record_preserves_peaks st h
  | cons l ls ih =>
    intro st h
    rw [List.foldl_cons]
    apply ih
    unfold parseLineStep
    cases hcl : classifyLine pyFloat l with
    | blank => exact h
    | junk => exact h
    | peakLine pk => exact h
    | fieldLine n c v =>
      simp only
      by_cases hc : c = "CHARGE"
      · simp only [hc, beq_self_eq_true, if_true]
        exact flush_record_preserves_peaks st h
      · simp only [beq_iff_eq, hc, if_false]
        exact h

/-! ## parse_custom_msp (src/msp_to_lib.py, lines 43-107) -/

/-- The warning printed by `parse_custom_msp` when a record accumulator
with fields but no peaks is flushed at a `CHARGE:` boundary, identified
by the record's `COMPOUND_NAME` value or, failing that, its positional
index (`len(records) + 1`). -/
inductive PCMWarning where
  | noPeaks (ident : String)
deriving Repr, DecidableEq

structure PCState (F : Type) where
  records : List (FieldData F × List (F × F))
  current : FieldData F
  peaks : List (F × F)
  warnings : List PCMWarning
deriving Repr, DecidableEq

def initPCState {F : Type} : PCState F := ⟨[], {}, [], []⟩

/-- The `take` helper: `line.split(":", 1)[1].strip()`.  The colon-free
case cannot arise at the call sites (each guarded by a prefix test that
includes the colon). -/
def pcmVal (line : String) : String :=
  match splitFirstColon line with
  | some (_, v) => pyStrip v
  | none => ""

/-- Lines 56-65 of msp_to_lib.py: flush the previous record if complete,
or warn (naming it by `COMPOUND_NAME`, else by positional index) if it
has fields but no peaks. -/
def pcmFlushAtCharge {F : Type} (st : PCState F) : PCState F :=
  if !st.current.isEmpty && !st.peaks.isEmpty then
    { st with records := st.records ++ [(st.current, st.peaks)] }
  else if !st.current.isEmpty && st.peaks.isEmpty then
    { st with warnings := st.warnings ++
        [.noPeaks (st.current.compound_name.getD
          ("index " ++ natRepr (st.records.length + 1)))] }
  else st

/-- One iteration of the `for line in lines` loop of `parse_custom_msp`.
Returns `none` when an uncaught conversion exception aborts the parse
(the `take(..., int)` and `take(..., float)` calls are not wrapped in
`try`). -/
def pcmStep {F : Type} (pyInt : String → Option Int) (pyFloat : String → Option F)
    (st : PCState F) (line0 : String) : Option (PCState F) :=
  let line := pyStrip line0
  if line = "" then some st
  else if pyStartsWith line "CHARGE:" then
    let st1 := pcmFlushAtCharge st
    let st2 := { st1 with current := {}, peaks := [] }
    (pyInt (pcmVal line)).map
      (fun v => { st2 with current := { st2.current with charge := some v } })
  else if pyStartsWith line "IONMODE:" then
    some { st with current := { st.current with ion_mode := some (pyUpper (pcmVal line)) } }
  else if pyStartsWith line "SMILES:" then
    some { st with current := { st.current with smiles := some (pcmVal line) } }
  else if pyStartsWith line "INCHI:" then
    some { st with current := { st.current with inchi := some (pcmVal line) } }
  else if pyStartsWith line "PUBMED:" then
    some { st with current := { st.current with pubmed := some (pcmVal line) } }
  else if pyStartsWith line "CCS:" then
    (pyFloat (pcmVal line)).map (fun v => { st with current := { st.current with ccs := some v } })
  else if pyStartsWith line "COL_ENERGY1:" then
    (pyFloat (pcmVal line)).map
      (fun v => { st with current := { st.current with col_energy1 := some v } })
  else if pyStartsWith line "COL_ENERGY2:" then
    (pyFloat (pcmVal line)).map
      (fun v => { st with current := { st.current with col_energy2 := some v } })
  else if pyStartsWith line "MS_LEVEL:" then
    (pyInt (pcmVal line)).map
      (fun v => { st with current := { st.current with ms_level := some v } })
  else if pyStartsWith line "INSTRUMENT_TYPE:" then
    some { st with current := { st.current with instrument_type := some (pcmVal line) } }
  else if pyStartsWith line "COMPOUND_NAME:" then
    some { st with current := { st.current with compound_name := some (pcmVal line) } }
  else if pyStartsWith line "PRECURSOR_MZ:" then
    (pyFloat (pcmVal line)).map
      (fun v => { st with current := { st.current with precursor_mz := some v } })
  else if pyStartsWith line "INCHIKEY:" then
    some { st with current := { st.current with inchikey := some (pcmVal line) } }
  else if pyStartsWith line "NUM PEAKS:" then
    (pyInt (pcmVal line)).map
      (fun v => { st with current := { st.current with num_peaks := some v } })
  else
    match parsePeak pyFloat line with
    | some pk => some { st with peaks := st.peaks ++ [pk] }
    | none => some st

/-- Lines 103-105 of msp_to_lib.py: the final flush appends the last
record only when complete; it prints no warning in the incomplete case. -/
def pcmFinish {F : Type} (st : PCState F) : PCState F :=
  if !st.current.isEmpty && !st.peaks.isEmpty then
    { st with records := st.records ++ [(st.current, st.peaks)] }
  else st

def parse_custom_msp {F : Type} (pyInt : String → Option Int)
    (pyFloat : String → Option F) (lines : List String) :
    Option (List (FieldData F × List (F × F)) × List PCMWarning) :=
  (lines.foldlM (pcmStep pyInt pyFloat) initPCState).map
    (fun st => ((pcmFinish st).records, (pcmFinish st).warnings))

example :
    parse_custom_msp pyIntSimple pyFloatShape
      ["CHARGE: 1", "COMPOUND_NAME: TestMol", "CHARGE: 1", "10.0 5.0"] =
    some ([({ charge := some 1 }, [("10.0", "5.0")])], [.noPeaks "TestMol"]) := by
  decide

example :
    parse_custom_msp pyIntSimple pyFloatShape ["CHARGE: 1"] = some ([], []) := by
  decide

/-! ## Parser claims -/

/-- The record count of `parse_lines` equals the number of good
CHARGE-delimited segments. -/
lemma parse_lines_count {F : Type} (pyInt : String → Option Int)
    (pyFloat : String → Option F) (lines : List String) :
    (parse_lines pyInt pyFloat lines).1.length =
      ((splitSegments pyFloat lines).filter (segGood pyInt pyFloat)).length := by
  unfold parse_lines splitSegments
  rw [parse_count_invariant pyInt pyFloat lines initParseState [] rfl rfl]
  simp [initParseState]

/-- The warnings of `parse_lines` are exactly the per-field
conversion-failure warnings. -/
lemma parse_lines_warnings {F : Type} (pyInt : String → Option Int)
    (pyFloat : String → Option F) (lines : List String) :
    (parse_lines pyInt pyFloat lines).2 = specWarnings pyInt pyFloat lines := by
  show (flush_record (List.foldl (parseLineStep pyInt pyFloat) initParseState lines)).warnings = _
  rw [parse_warnings_invariant]
  simp [initParseState]

/-- C2: for every sequence of input lines (and any behaviour of the
`int`/`float` conversions), every record in the output of
`MSPParser.parse_lines` has a non-empty peaks sequence; no record with
zero peaks is ever emitted. -/
theorem claim_C2_no_zero_peak_record {F : Type} (pyInt : String → Option Int)
    (pyFloat : String → Option F) (lines : List String) (r : MSPRecord F)
    (hr : r ∈ (parse_lines pyInt pyFloat lines).1) : r.peaks ≠ [] := by
  unfold parse_lines at hr
  exact parse_fold_peaks pyInt pyFloat lines initParseState
    (by intro r hmem; simp [initParseState] at hmem) r hr

theorem claim_C2_witness :
    ({ peaks := [("100.0", "50.0")], fields := { charge := some 1 } } : MSPRecord String).peaks
      ≠ [] :=
  claim_C2_no_zero_peak_record pyIntSimple pyFloatShape ["CHARGE: 1", "100.0 50.0"] _
    (by decide)

/-- C6 counterexample: the input consisting of the single parseable peak
line `"100.0 50.0"` has one CHARGE-delimited segment with a parseable
peak line, yet `parse_lines` emits zero records (the segment has no
successfully parsed field, so `flush_record`'s `current_data and
current_peaks` guard rejects it), refuting the claimed record-count
equation; moreover the drop produces no warning. -/
theorem claim_C6_counterexample :
    (parse_lines pyIntSimple pyFloatShape ["100.0 50.0"]).1.length = 0 ∧
    claimSegmentsWithPeakCount pyFloatShape ["100.0 50.0"] = 1 ∧
    (parse_lines pyIntSimple pyFloatShape ["100.0 50.0"]).2 = [] := by
  refine ⟨by decide, by decide, by decide⟩

/-- C6 (amended): for every sequence of input lines, the number of
records emitted by `MSPParser.parse_lines` equals the number of
CHARGE-delimited segments that contain both at least one parseable peak
line and at least one successfully parsed recognized field; the other
segments are dropped silently — the warnings of a run are exactly the
per-field conversion-failure warnings, with none for a dropped
segment. -/
theorem claim_C6_amended_record_count {F : Type} (pyInt : String → Option Int)
    (pyFloat : String → Option F) (lines : List String) :
    (parse_lines pyInt pyFloat lines).1.length =
      ((splitSegments pyFloat lines).filter (segGood pyInt pyFloat)).length ∧
    (parse_lines pyInt pyFloat lines).2 = specWarnings pyInt pyFloat lines :=
  ⟨parse_lines_count pyInt pyFloat lines, parse_lines_warnings pyInt pyFloat lines⟩

/-- C10 counterexample: the segment `["CHARGE: x", "100.0 50.0"]` has a
parseable peak line and no successfully parsed field value (the CHARGE
value fails `int` conversion), and it indeed produces no record — but
the run is not warning-free as the claim states: the failed field
conversion prints a warning. -/
theorem claim_C10_counterexample :
    (parse_lines pyIntSimple pyFloatShape ["CHARGE: x", "100.0 50.0"]).1 = [] ∧
    (parse_lines pyIntSimple pyFloatShape ["CHARGE: x", "100.0 50.0"]).2 =
      [.couldNotParse "CHARGE" "x"] := by
  refine ⟨by decide, by decide⟩

/-- C10 (amended): a CHARGE-delimited segment with parseable peak lines
but no successfully parsed recognized field produces no emitted record,
and the discard itself is silent: `flush_record` of a field-less
accumulator changes nothing but the reset accumulators, and the only
warnings of a run are the per-field conversion-failure warnings (there
is no discard warning). -/
theorem claim_C10_amended_silent_discard {F : Type} (pyInt : String → Option Int)
    (pyFloat : String → Option F) (lines : List String) (st : ParseState F) :
    (st.current_data.isEmpty = true →
      flush_record st = { st with current_data := {}, current_peaks := [] }) ∧
    ((∀ seg ∈ splitSegments pyFloat lines,
        seg.any (isGoodFieldLine pyInt pyFloat) = false) →
      (parse_lines pyInt pyFloat lines).1 = []) ∧
    (parse_lines pyInt pyFloat lines).2 = specWarnings pyInt pyFloat lines := by
  refine ⟨?_, ?_, ?_⟩
  · intro h
    unfold flush_record
    rw [h]
    simp
  · intro h
    have hcount := parse_lines_count pyInt pyFloat lines
    have hfilter : (splitSegments pyFloat lines).filter (segGood pyInt pyFloat) = [] := by
      rw [List.filter_eq_nil_iff]
      intro seg hseg
      simp [segGood, h seg hseg]
    rw [hfilter] at hcount
    exact List.length_eq_zero.mp hcount
  · exact parse_lines_warnings pyInt pyFloat lines

theorem claim_C10_witness :
    flush_record (initParseState (F := String)) =
      { initParseState with current_data := {}, current_peaks := [] } ∧
    (parse_lines pyIntSimple pyFloatShape ["CHARGE: x", "100.0 50.0"]).1 = [] :=
  have h := claim_C10_amended_silent_discard pyIntSimple pyFloatShape
    ["CHARGE: x", "100.0 50.0"] initParseState
  ⟨h.1 (by decide), h.2.1 (by decide)⟩

/-- C4 counterexample: on the input `["CHARGE: 1"]`, the accumulator of
`MSPParser.parse_lines` holds one field (charge = 1) when the end-of-input
flush runs with zero peaks, and the record is discarded with no warning
signal at all — refuting the claim that every such flush warns. -/
theorem claim_C4_counterexample :
    (List.foldl (parseLineStep pyIntSimple pyFloatShape) initParseState
        ["CHARGE: 1"]).current_data.charge = some 1 ∧
    parse_lines pyIntSimple pyFloatShape ["CHARGE: 1"] = ([], []) := by
  refine ⟨by decide, by decide⟩

/-- C4 (amended): `MSPParser.parse_lines` always discards a
fields-but-no-peaks accumulator silently (no record, no warning, both at
CHARGE boundaries and at end of input); the warning described by the
claim exists only in the legacy `parse_custom_msp`, and only at `CHARGE:`
boundaries, where the discarded record is identified by its
`COMPOUND_NAME` field or by its positional index; `parse_custom_msp`'s
end-of-input flush discards silently.  Parsing continues in all cases. -/
theorem claim_C4_amended_flush_warning {F : Type} (pyInt : String → Option Int)
    (pyFloat : String → Option F) (st : ParseState F) (pst : PCState F)
    (line : String) (v : Int) :
    (st.current_peaks = [] →
      flush_record st = { st with current_data := {}, current_peaks := [] }) ∧
    (pyStrip line ≠ "" → pyStartsWith (pyStrip line) "CHARGE:" = true →
      pst.current.isEmpty = false → pst.peaks = [] →
      pyInt (pcmVal (pyStrip line)) = some v →
      pcmStep pyInt pyFloat pst line =
        some { records := pst.records,
               current := { charge := some v },
               peaks := [],
               warnings := pst.warnings ++
                 [.noPeaks (pst.current.compound_name.getD
                   ("index " ++ natRepr (pst.records.length + 1)))] }) ∧
    (pst.peaks = [] → pcmFinish pst = pst) := by
  refine ⟨?_, ?_, ?_⟩
  · intro h
    unfold flush_record
    rw [h]
    simp
  · intro h0 h1 h2 h3 h4
    unfold pcmStep
    rw [if_neg h0, if_pos h1]
    unfold pcmFlushAtCharge
    rw [h2, h3]
    simp only [Bool.not_false, Bool.and_true, Bool.not_true, Bool.false_and,
      Bool.and_false, List.isEmpty_nil, Bool.true_and, if_false, if_true, h4,
      Option.map_some']
    rfl
  · intro h
    unfold pcmFinish
    rw [h]
    simp

theorem claim_C4_witness :
    pcmStep pyIntSimple pyFloatShape
        { records := [], current := { compound_name := some "TestMol" },
          peaks := [], warnings := [] } "CHARGE: 1" =
      some { records := [], current := { charge := some 1 }, peaks := [],
             warnings := [.noPeaks "TestMol"] } ∧
    pcmFinish ({ records := [], current := { compound_name := some "TestMol" },
                 peaks := [], warnings := [] } : PCState String) =
      { records := [], current := { compound_name := some "TestMol" },
        peaks := [], warnings := [] } :=
  have h := claim_C4_amended_flush_warning pyIntSimple pyFloatShape initParseState
    ({ records := [], current := { compound_name := some "TestMol" },
       peaks := [], warnings := [] } : PCState String) "CHARGE: 1" 1
  ⟨h.2.1 (by decide) (by decide) (by decide) rfl (by decide), h.2.2 rfl⟩

/-! ## Classification service (src/stebantolib/classifiers/classyfire.py)

A small JSON value model: enough shape to express the payloads the two
normalizers read and the Python truthiness tests the code performs. -/

inductive JVal where
  | null
  | str (s : String)
  | arr (xs : List JVal)
  | obj (fields : List (String × JVal))
deriving Repr

/-- Python truthiness: `None`, `""`, `[]`, `{}` are falsy. -/
def JVal.truthy : JVal → Bool
  | .null => false
  | .str s => s != ""
  | .arr xs => !xs.isEmpty
  | .obj fs => !fs.isEmpty

/-- Python `d.get(k)` (with `None` for a missing key or a non-dict). -/
def jGetFields : List (String × JVal) → String → JVal
  | [], _ => .null
  | (k', v) :: rest, k => if k' == k then v else jGetFields rest k

def JVal.get : JVal → String → JVal
  | .obj fs, k => jGetFields fs k
  | _, _ => .null

/-- Python `a or b`. -/
def pyOr (a b : JVal) : JVal := if a.truthy then a else b

/-- Python `x[0]`.  At its use sites `x` is always truthy (guaranteed by
`or [""]`), so only the non-empty list and string cases can arise. -/
def jIndex0 : JVal → JVal
  | .arr (x :: _) => x
  | .str s => if s = "" then .null else .str (String.singleton s.front)
  | _ => .null

/-- `ClassificationService._is_valid_classification` (lines 215-221):
falsy results are invalid; otherwise at least one of the five taxonomy
fields must be truthy. -/
def is_valid_classification (result : Option JVal) : Bool :=
  match result with
  | none => false
  | some v =>
    if !v.truthy then false
    else
      ["kingdom", "superclass", "class", "subclass", "direct_parent"].any
        (fun f => (v.get f).truthy)

/-- `(entity_data.get(name) or {}).get(key) or ""`. -/
def getNodeField (entity : JVal) (name key : String) : JVal :=
  pyOr ((pyOr (entity.get name) (JVal.obj [])).get key) (JVal.str "")

/-- `ClassificationService._normalize_chemont_entity` (lines 223-246). -/
def normalize_chemont_entity (entity : JVal) : Option JVal :=
  if !entity.truthy then none
  else
    let result := JVal.obj
      [("ontology", .str "ChemOnt"),
       ("kingdom", getNodeField entity "kingdom" "name"),
       ("superclass", getNodeField entity "superclass" "name"),
       ("class", getNodeField entity "class" "name"),
       ("subclass", getNodeField entity "subclass" "name"),
       ("direct_parent", getNodeField entity "direct_parent" "name"),
       ("ontology_id",
        pyOr (getNodeField entity "direct_parent" "chemont_id")
          (pyOr (getNodeField entity "class" "chemont_id")
            (getNodeField entity "superclass" "chemont_id"))),
       ("source", .str "ClassyFire")]
    if is_valid_classification (some result) then some result else none

/-- `ClassificationService._normalize_npclassifier` (lines 248-263). -/
def normalize_npclassifier (npc : JVal) : Option JVal :=
  if !npc.truthy then none
  else
    some (JVal.obj
      [("ontology", .str "NPClassifier"),
       ("kingdom", .str ""),
       ("superclass", jIndex0 (pyOr (npc.get "superclass") (.arr [.str ""]))),
       ("class", jIndex0 (pyOr (npc.get "class") (.arr [.str ""]))),
       ("subclass", .str ""),
       ("direct_parent", jIndex0 (pyOr (npc.get "pathway") (.arr [.str ""]))),
       ("ontology_id", .str ""),
       ("source", .str "NPClassifier")])

/-! ### The HTTP world and the service state -/

structure ReqInfo where
  method : String
  url : String
  body : Option String := none
deriving Repr, DecidableEq

/-- The network's answer to one transport-level request: either a raised
`requests.exceptions.RequestException` with its message, or a response
with a status code and a body (`none` models a body that is not valid
JSON, so that `response.json()` raises). -/
inductive NetEvent where
  | exc (msg : String)
  | resp (status : Nat) (body : Option JVal)

/-- The runtime environment: the world maps (call index, request) to the
network's answer; the counter and the log record the transport calls
performed so far. -/
structure RT where
  world : Nat → ReqInfo → NetEvent
  counter : Nat
  log : List ReqInfo

/-- One `ClassificationService` instance: its `config.disable_wishart`
flag, its cache dict, and the runtime environment.  (`config.timeout`
and `config.debug` do not influence control flow and are omitted.) -/
structure SState where
  disable_wishart : Bool
  cache : List (String × JVal)
  rt : RT

/-- One `session.get`/`session.post` call (`body` is the `json=` payload
of a POST). -/
def doRequest (st : SState) (method url : String) (payload : Option String := none) :
    NetEvent × SState :=
  (st.rt.world st.rt.counter ⟨method, url, payload⟩,
   { st with rt := { st.rt with
                     counter := st.rt.counter + 1
                     log := st.rt.log ++ [⟨method, url, payload⟩] } })

structure HResp where
  status : Nat
  body : Option JVal

/-- `requests.Response.ok`: false exactly for 4xx/5xx statuses. -/
def HResp.ok (r : HResp) : Bool := !(400 ≤ r.status && r.status < 600)

/-- `ClassificationService._request_with_retry` (lines 188-205): one
request; a single retry after a pause when the status is 429 or 503; a
raised `RequestException` anywhere (first attempt or retry) is caught
and yields `None`. -/
def request_with_retry (st : SState) (url method : String)
    (payload : Option String := none) : Option HResp × SState :=
  match doRequest st method url payload with
  | (.exc _, st1) => (none, st1)
  | (.resp s b, st1) =>
    if s == 429 || s == 503 then
      match doRequest st1 method url payload with
      | (.exc _, st2) => (none, st2)
      | (.resp s2 b2, st2) => (some ⟨s2, b2⟩, st2)
    else (some ⟨s, b⟩, st1)

/-- The message of the `requests` JSON-decode error raised by
`response.json()` on a non-JSON body (the only `RequestException` that
can still reach the callers' `except` blocks, since
`_request_with_retry` swallows transport exceptions). -/
def jsonDecodeMsg : String := "Expecting value: line 1 column 1 (char 0)"

/-- `ClassificationService._handle_request_error` (lines 207-213). -/
def handle_request_error (st : SState) (errMsg url : String) : SState :=
  if (strContains (pyLower errMsg) "getaddrinfo failed"
        || strContains (pyLower errMsg) "name resolution")
      && strContains url "wishartlab" then
    { st with disable_wishart := true }
  else st

/-- ClassyFire entity endpoint URL (the `quote` of an InChIKey is the
identity on the unreserved characters InChIKeys are made of). -/
def CLASSYFIRE_ENTITY_URL (ik : String) : String :=
  "https://classyfire.wishartlab.ca/entities/" ++ ik ++ ".json"

def CLASSYFIRE_CLASSIFY_URL : String :=
  "https://classyfire.wishartlab.ca/classification.json"

def NPCLASSIFIER_URL (smiles : String) : String :=
  "https://npclassifier.ucsd.edu/classify?smiles=" ++ smiles

def FIEHNLAB_MIRROR (ik : String) : String :=
  "https://cfb.fiehnlab.ucdavis.edu/entities/" ++ ik ++ ".json"

/-- Python dict access `self._cache.get(key)`. -/
def cacheGet : List (String × JVal) → String → Option JVal
  | [], _ => none
  | (k', v) :: rest, k => if k' == k then some v else cacheGet rest k

/-- Python dict assignment `self._cache[key] = value` (followed by
`save()`, which persists the whole dict; persistence round-trips
losslessly, so the in-memory dict doubles as the disk model). -/
def cachePut : List (String × JVal) → String → JVal → List (String × JVal)
  | [], k, v => [(k, v)]
  | (k', v') :: rest, k, v =>
    if k' == k then (k', v) :: rest else (k', v') :: cachePut rest k v

/-- The `for url in mirrors` loop of `_query_classyfire_entities`
(lines 141-151): each URL is fetched with retry; a valid normalized
result returns immediately; a JSON-decode failure is the only
`RequestException` that reaches the `except` handler. -/
def entityLoop : List String → SState → Option JVal × SState
  | [], st => (none, st)
  | url :: rest, st =>
    match request_with_retry st url "GET" with
    | (some resp, st1) =>
      if resp.ok then
        match resp.body with
        | some j =>
          if is_valid_classification (normalize_chemont_entity j) then
            (normalize_chemont_entity j, st1)
          else entityLoop rest st1
        | none => entityLoop rest (handle_request_error st1 jsonDecodeMsg url)
      else entityLoop rest st1
    | (none, st1) => entityLoop rest st1

/-- `ClassificationService._query_classyfire_entities` (lines 134-152). -/
def query_classyfire_entities (st : SState) (inchikey : String) : Option JVal × SState :=
  entityLoop
    ((if st.disable_wishart then [] else [CLASSYFIRE_ENTITY_URL inchikey]) ++
      [FIEHNLAB_MIRROR inchikey]) st

/-- `ClassificationService._query_classyfire_by_smiles` (lines 154-172). -/
def query_classyfire_by_smiles (st : SState) (smiles : String) : Option JVal × SState :=
  if st.disable_wishart then (none, st)
  else
    match request_with_retry st CLASSYFIRE_CLASSIFY_URL "POST" (some smiles) with
    | (some resp, st1) =>
      if resp.ok then
        match resp.body with
        | some j => (normalize_chemont_entity j, st1)
        | none => (none, handle_request_error st1 jsonDecodeMsg CLASSYFIRE_CLASSIFY_URL)
      else (none, st1)
    | (none, st1) => (none, st1)

/-- `ClassificationService._query_npclassifier` (lines 174-186): a plain
`session.get` with NO retry; the result of `_normalize_npclassifier` is
returned without any validity check. -/
def query_npclassifier (st : SState) (smiles : String) : Option JVal × SState :=
  match doRequest st "GET" (NPCLASSIFIER_URL smiles) with
  | (.exc _, st1) => (none, st1)
  | (.resp s b, st1) =>
    if (HResp.mk s b).ok then
      match b with
      | some j => (normalize_npclassifier j, st1)
      | none => (none, st1)
    else (none, st1)

/-- `ClassificationService._try_classyfire_by_inchikey` (lines 100-114). -/
def try_classyfire_by_inchikey (st : SState) (inchikey : String) : Option JVal × SState :=
  if is_valid_classification (cacheGet st.cache ("ik:" ++ inchikey)) then
    (cacheGet st.cache ("ik:" ++ inchikey), st)
  else
    match query_classyfire_entities st inchikey with
    | (result, st1) =>
      if is_valid_classification result then
        match result with
        | some j => (some j, { st1 with cache := cachePut st1.cache ("ik:" ++ inchikey) j })
        | none => (none, st1)
      else (none, st1)

/-- `ClassificationService._try_smiles_classification` (lines 116-132):
the NPClassifier fallback result is returned directly, with neither a
validity check nor a cache insertion. -/
def try_smiles_classification (st : SState) (smiles : String) : Option JVal × SState :=
  if is_valid_classification (cacheGet st.cache ("smiles:" ++ smiles)) then
    (cacheGet st.cache ("smiles:" ++ smiles), st)
  else if !st.disable_wishart then
    match query_classyfire_by_smiles st smiles with
    | (result, st1) =>
      if is_valid_classification result then
        match result with
        | some j =>
          (some j, { st1 with cache := cachePut st1.cache ("smiles:" ++ smiles) j })
        | none => (none, st1)
      else query_npclassifier st1 smiles
  else query_npclassifier st smiles

/-- Python truthiness of an `Optional[Dict]` result (`if result:`). -/
def pyTruthyOpt : Option JVal → Bool
  | none => false
  | some v => v.truthy

/-- `ClassificationService.get_compound_classes` (lines 76-98). -/
def service_get_compound_classes (st : SState) (inchikey smiles : Option String) :
    Option JVal × SState :=
  if pyStrip (inchikey.getD "") != "" then
    match try_classyfire_by_inchikey st (pyStrip (inchikey.getD "")) with
    | (result, st1) =>
      if pyTruthyOpt result then (result, st1)
      else
        if pyStrip (smiles.getD "") != "" then
          match try_smiles_classification st1 (pyStrip (smiles.getD "")) with
          | (result2, st2) =>
            if pyTruthyOpt result2 then (result2, st2) else (none, st2)
        else (none, st1)
  else if pyStrip (smiles.getD "") != "" then
    match try_smiles_classification st (pyStrip (smiles.getD "")) with
    | (result2, st2) => if pyTruthyOpt result2 then (result2, st2) else (none, st2)
  else (none, st)

/-- The module-level `get_compound_classes` (lines 266-273), as called
once per record by `MassBankRecordBuilder._get_compound_classes`: it
constructs a fresh `ClassifierConfig` (so `disable_wishart` starts out
`False` on every call) and a fresh `ClassificationService` whose cache is
loaded from the JSON file on disk (modelled by the `disk` mapping, since
persistence round-trips losslessly). -/
def top_get_compound_classes (disk : List (String × JVal)) (rt : RT)
    (inchikey smiles : Option String) : Option JVal × List (String × JVal) × RT :=
  let st : SState := { disable_wishart := false, cache := disk, rt := rt }
  let p := service_get_compound_classes st inchikey smiles
  (p.1, p.2.cache, p.2.rt)

/-! ### Service lemmas -/

/-- Every cache entry holds a valid classification. -/
def cacheAllValid (c : List (String × JVal)) : Prop :=
  ∀ kv ∈ c, is_valid_classification (some kv.2) = true

lemma cacheGet_cachePut_self (c : List (String × JVal)) (k : String) (v : JVal) :
    cacheGet (cachePut c k v) k = some v := by
  induction c with
  | nil => simp [cachePut, cacheGet]
  | cons hd tl ih =>
    unfold cachePut
    by_cases h : hd.1 = k
    · simp [cacheGet, h]
    · simp only [beq_iff_eq, h, if_false]
      unfold cacheGet
      simp [h, ih]

lemma mem_cachePut (c : List (String × JVal)) (k : String) (v : JVal)
    (e : String × JVal) (he : e ∈ cachePut c k v) : e.2 = v ∨ e ∈ c := by
  induction c with
  | nil =>
    simp [cachePut] at he
    subst he
    exact Or.inl rfl
  | cons hd tl ih =>
    unfold cachePut at he
    by_cases h : hd.1 = k
    · simp only [beq_iff_eq, h, if_true] at he
      rcases List.mem_cons.mp he with rfl | hmem
      · exact Or.inl rfl
      · exact Or.inr (List.mem_cons_of_mem _ hmem)
    · simp only [beq_iff_eq, h, if_false] at he
      rcases List.mem_cons.mp he with rfl | hmem
      · exact Or.inr (List.mem_cons_self _ _)
      · rcases ih hmem with hv | hmem2
        · exact Or.inl hv
        · exact Or.inr (List.mem_cons_of_mem _ hmem2)

lemma cachePut_allValid (c : List (String × JVal)) (k : String) (v : JVal)
    (hc : cacheAllValid c) (hv : is_valid_classification (some v) = true) :
    cacheAllValid (cachePut c k v) := by
  intro e he
  rcases mem_cachePut c k v e he with h | h
  · rw [h]; exact hv
  · exact hc e h

/-- A valid classification result is a truthy Python value. -/
lemma valid_truthy (r : JVal) (h : is_valid_classification (some r) = true) :
    r.truthy = true := by
  cases hb : r.truthy
  · exfalso
    simp only [is_valid_classification, hb] at h
    simp at h
  · rfl

lemma request_with_retry_cache (st : SState) (url method : String) (p : Option String) :
    (request_with_retry st url method p).2.cache = st.cache ∧
    (request_with_retry st url method p).2.disable_wishart = st.disable_wishart := by
  unfold request_with_retry
  split
  · next st1 heq =>
      have h : (doRequest st method url p).2 = st1 := congrArg Prod.snd heq
      rw [← h]
      exact ⟨rfl, rfl⟩
  · next s b st1 heq =>
      have h : (doRequest st method url p).2 = st1 := congrArg Prod.snd heq
      split
      · split
        · next st2 heq2 =>
            have h2 : (doRequest st1 method url p).2 = st2 := congrArg Prod.snd heq2
            rw [← h2, ← h]
            exact ⟨rfl, rfl⟩
        · next s2 b2 st2 heq2 =>
            have h2 : (doRequest st1 method url p).2 = st2 := congrArg Prod.snd heq2
            rw [← h2, ← h]
            exact ⟨rfl, rfl⟩
      · rw [← h]
        exact ⟨rfl, rfl⟩

lemma handle_request_error_cache (st : SState) (e u : String) :
    (handle_request_error st e u).cache = st.cache := by
  unfold handle_request_error
  split <;> rfl

lemma entityLoop_cache (urls : List String) (st : SState) :
    (entityLoop urls st).2.cache = st.cache := by
  induction urls generalizing st with
  | nil => rfl
  | cons url rest ih =>
    unfold entityLoop
    split
    · next resp st1 heq =>
        have hc1 : st1.cache = st.cache := by
          have h := (request_with_retry_cache st url "GET" none).1
          rw [heq] at h
          exact h
        split
        · split
          · split
            · exact hc1
            · rw [ih st1, hc1]
          · rw [ih _, handle_request_error_cache, hc1]
        · rw [ih st1, hc1]
    · next st1 heq =>
        have hc1 : st1.cache = st.cache := by
          have h := (request_with_retry_cache st url "GET" none).1
          rw [heq] at h
          exact h
        rw [ih st1, hc1]

lemma query_classyfire_entities_cache (st : SState) (ik : String) :
    (query_classyfire_entities st ik).2.cache = st.cache := by
  unfold query_classyfire_entities
  exact entityLoop_cache _ st

lemma query_classyfire_by_smiles_cache (st : SState) (sm : String) :
    (query_classyfire_by_smiles st sm).2.cache = st.cache := by
  unfold query_classyfire_by_smiles
  split
  · rfl
  · split
    · next resp st1 heq =>
        have hc1 : st1.cache = st.cache := by
          have h := (request_with_retry_cache st CLASSYFIRE_CLASSIFY_URL "POST" (some sm)).1
          rw [heq] at h
          exact h
        split
        · split
          · exact hc1
          · rw [handle_request_error_cache]
            exact hc1
        · exact hc1
    · next st1 heq =>
        have hc1 : st1.cache = st.cache := by
          have h := (request_with_retry_cache st CLASSYFIRE_CLASSIFY_URL "POST" (some sm)).1
          rw [heq] at h
          exact h
        exact hc1

lemma query_npclassifier_cache (st : SState) (sm : String) :
    (query_npclassifier st sm).2.cache = st.cache := by
  unfold query_npclassifier
  split
  · next st1 heq =>
      have h : (doRequest st "GET" (NPCLASSIFIER_URL sm) none).2 = st1 :=
        congrArg Prod.snd heq
      rw [← h]
      rfl
  · next s b st1 heq =>
      have h : (doRequest st "GET" (NPCLASSIFIER_URL sm) none).2 = st1 :=
        congrArg Prod.snd heq
      split
      · split
        · rw [← h]; rfl
        · rw [← h]; rfl
      · rw [← h]; rfl

lemma query_npclassifier_log (st : SState) (sm : String) :
    (query_npclassifier st sm).2.rt.log.length = st.rt.log.length + 1 := by
  unfold query_npclassifier
  split
  · next st1 heq =>
      have h : (doRequest st "GET" (NPCLASSIFIER_URL sm) none).2 = st1 :=
        congrArg Prod.snd heq
      rw [← h]
      simp [doRequest]
  · next s b st1 heq =>
      have h : (doRequest st "GET" (NPCLASSIFIER_URL sm) none).2 = st1 :=
        congrArg Prod.snd heq
      split
      · split
        · rw [← h]; simp [doRequest]
        · rw [← h]; simp [doRequest]
      · rw [← h]; simp [doRequest]

/-! ### Concrete worlds for the concrete-input theorems -/

def mkRT (w : Nat → ReqInfo → NetEvent) : RT := { world := w, counter := 0, log := [] }

/-- A world in which every request to the wishartlab host fails with a
DNS error and every other request returns 404. -/
def dnsWorld : Nat → ReqInfo → NetEvent := fun _ req =>
  if strContains req.url "wishartlab" then .exc "getaddrinfo failed" else .resp 404 none

/-- A world for C1: the ClassyFire classification POST fails with 500 and
NPClassifier answers 200 with a truthy body that carries none of the five
taxonomy fields. -/
def c1World : Nat → ReqInfo → NetEvent := fun n _ =>
  if n == 0 then .resp 500 none
  else .resp 200 (some (JVal.obj [("isglycoside", .str "x")]))

def c1State : SState := { disable_wishart := false, cache := [], rt := mkRT c1World }

/-- The normalized NPClassifier result of a body with none of the
taxonomy keys: all five fields empty. -/
def npcSparse : JVal :=
  JVal.obj [("ontology", .str "NPClassifier"), ("kingdom", .str ""),
            ("superclass", .str ""), ("class", .str ""), ("subclass", .str ""),
            ("direct_parent", .str ""), ("ontology_id", .str ""),
            ("source", .str "NPClassifier")]

example : (service_get_compound_classes c1State none (some "C")).1 = some npcSparse := rfl

/-- A world that always throttles with 429. -/
def throttleWorld : Nat → ReqInfo → NetEvent := fun _ _ => .resp 429 none

def c5State : SState := { disable_wishart := true, cache := [], rt := mkRT throttleWorld }

/-- A world answering 429 then 503. -/
def throttleTwiceWorld : Nat → ReqInfo → NetEvent := fun n _ =>
  if n == 0 then .resp 429 none else .resp 503 none

def c5wState : SState :=
  { disable_wishart := false, cache := [], rt := mkRT throttleTwiceWorld }

/-- An entity body that carries no taxonomy information (normalizes to an
invalid result, hence to `None`). -/
def entBodyInvalid : JVal := JVal.obj [("foo", .str "bar")]

/-- An entity body with a kingdom node. -/
def entBodyKingdom : JVal :=
  JVal.obj [("kingdom", .obj [("name", .str "Organic compounds"),
                              ("chemont_id", .str "CHEMONTID:0000000")])]

/-- The normalization of `entBodyKingdom`. -/
def entNorm : JVal :=
  JVal.obj [("ontology", .str "ChemOnt"), ("kingdom", .str "Organic compounds"),
            ("superclass", .str ""), ("class", .str ""), ("subclass", .str ""),
            ("direct_parent", .str ""), ("ontology_id", .str ""),
            ("source", .str "ClassyFire")]

example : normalize_chemont_entity entBodyKingdom = some entNorm := rfl

example : normalize_chemont_entity entBodyInvalid = none := rfl

/-- A world for C7: the primary entity endpoint answers 200 with a
non-classifying body, the mirror answers 200 with a valid body. -/
def c7World : Nat → ReqInfo → NetEvent := fun n _ =>
  if n == 0 then .resp 200 (some entBodyInvalid) else .resp 200 (some entBodyKingdom)

def c7State : SState := { disable_wishart := false, cache := [], rt := mkRT c7World }

/-- The same world again, for the C8 witness. -/
def c8World : Nat → ReqInfo → NetEvent := fun n _ =>
  if n == 0 then .resp 200 (some entBodyInvalid) else .resp 200 (some entBodyKingdom)

def c8State : SState := { disable_wishart := false, cache := [], rt := mkRT c8World }

example :
    (try_classyfire_by_inchikey c7State "IK1").1 = some entNorm := rfl

/-- The NPClassifier body of the C9 scenario. -/
def npcBodyC9 : JVal :=
  JVal.obj [("superclass", .arr [.str "Alcohol"]), ("pathway", .arr [.str "Amino acids"])]

/-- The ClassificationResult of the C9 scenario. -/
def npcResultC9 : JVal :=
  JVal.obj [("ontology", .str "NPClassifier"), ("kingdom", .str ""),
            ("superclass", .str "Alcohol"), ("class", .str ""), ("subclass", .str ""),
            ("direct_parent", .str "Amino acids"), ("ontology_id", .str ""),
            ("source", .str "NPClassifier")]

def c9State : SState :=
  { disable_wishart := true, cache := [],
    rt := mkRT (fun _ _ => .resp 200 (some npcBodyC9)) }

example :
    (service_get_compound_classes c9State none (some "CCO")).1 = some npcResultC9 := rfl

/-! ## Classifier claims -/

/-- C1 counterexample: when the ClassyFire classification POST fails
(HTTP 500) and NPClassifier answers 200 with the truthy body
`{"isglycoside": "x"}`, the resolver returns to the caller a
ClassificationResult in which all five of kingdom, superclass, class,
subclass and direct_parent are empty — the NPClassifier fallback path
performs no validity check. -/
theorem claim_C1_counterexample :
    (service_get_compound_classes c1State none (some "C")).1 = some npcSparse ∧
    is_valid_classification (some npcSparse) = false :=
  ⟨rfl, rfl⟩

/-- C3: evaluation of the code at the failing input.  In a world where
every request to the wishartlab host raises a DNS name-resolution error,
two successive per-record lookups (each through the module-level
`get_compound_classes`, as the conversion pipeline performs them) both
query the primary wishartlab host — the second lookup does not skip it —
and the `disable_wishart` flag is still `False` after the first lookup:
the flag is never set, because `_request_with_retry` swallows the
`RequestException` before `_handle_request_error` can see it, and even a
set flag would die with the per-call `ClassificationService` instance. -/
theorem claim_C3_flag_never_persists :
    (top_get_compound_classes
        (top_get_compound_classes [] (mkRT dnsWorld) (some "AAA") none).2.1
        (top_get_compound_classes [] (mkRT dnsWorld) (some "AAA") none).2.2
        (some "AAA") none).2.2.log =
      [⟨"GET", CLASSYFIRE_ENTITY_URL "AAA", none⟩,
       ⟨"GET", FIEHNLAB_MIRROR "AAA", none⟩,
       ⟨"GET", CLASSYFIRE_ENTITY_URL "AAA", none⟩,
       ⟨"GET", FIEHNLAB_MIRROR "AAA", none⟩] ∧
    (service_get_compound_classes
        { disable_wishart := false, cache := [], rt := mkRT dnsWorld }
        (some "AAA") none).2.disable_wishart = false :=
  ⟨rfl, rfl⟩

/-- C5 counterexample: with the primary provider disabled, a lookup by
SMILES goes to NPClassifier; when that request returns HTTP 429 it is
NOT retried — exactly one request is issued in total — refuting the
claim that every rate-limited request of the resolver is retried once. -/
theorem claim_C5_counterexample :
    (service_get_compound_classes c5State none (some "C")).1 = none ∧
    (service_get_compound_classes c5State none (some "C")).2.rt.log =
      [⟨"GET", NPCLASSIFIER_URL "C", none⟩] :=
  ⟨rfl, rfl⟩

/-- C7 counterexample: a resolve of InChIKey "IK1" in a world where the
primary entity endpoint answers with a non-classifying body and the
mirror with a valid one returns the mirror result after TWO remote
requests; the second resolve is a cache hit adding none — so both calls
return the identical result, but the total number of remote calls is
two, not "at most one" as the claim states. -/
theorem claim_C7_counterexample :
    (service_get_compound_classes c7State (some "IK1") none).1 = some entNorm ∧
    (service_get_compound_classes
        (service_get_compound_classes c7State (some "IK1") none).2
        (some "IK1") none).1 = some entNorm ∧
    (service_get_compound_classes
        (service_get_compound_classes c7State (some "IK1") none).2
        (some "IK1") none).2.rt.log.length = 2 :=
  ⟨rfl, rfl, rfl⟩

/-- C5 (amended): requests issued through `_request_with_retry` (the
ClassyFire entity and classification endpoints) are retried exactly once
after a fixed delay when the response status is 429 or 503 — even if the
retried request also throttles, its response is returned with no second
retry (exactly two transport requests); a transport-level failure is
never retried (exactly one transport request, result `None`); and the
NPClassifier request bypasses the retry helper entirely: it performs
exactly one transport request no matter what the network answers. -/
theorem claim_C5_amended_retry (st : SState) (url method : String) (p : Option String)
    (s1 s2 : Nat) (b1 b2 : Option JVal) (m sm : String) :
    (s1 = 429 ∨ s1 = 503 →
     st.rt.world st.rt.counter ⟨method, url, p⟩ = .resp s1 b1 →
     st.rt.world (st.rt.counter + 1) ⟨method, url, p⟩ = .resp s2 b2 →
     request_with_retry st url method p =
       (some ⟨s2, b2⟩,
        { st with rt := { st.rt with
                          counter := st.rt.counter + 1 + 1
                          log := st.rt.log ++ [⟨method, url, p⟩] ++ [⟨method, url, p⟩] } })) ∧
    (st.rt.world st.rt.counter ⟨method, url, p⟩ = .exc m →
     request_with_retry st url method p =
       (none,
        { st with rt := { st.rt with
                          counter := st.rt.counter + 1
                          log := st.rt.log ++ [⟨method, url, p⟩] } })) ∧
    (query_npclassifier st sm).2.rt.log.length = st.rt.log.length + 1 := by
  refine ⟨?_, ?_, query_npclassifier_log st sm⟩
  · intro hs h1 h2
    rcases hs with rfl | rfl <;>
      (simp only [request_with_retry, doRequest, h1, h2]
       rw [if_pos (by decide)])
  · intro h
    simp only [request_with_retry, doRequest, h]

/-- A world answering 503 then 200, for the 503-triggered retry. -/
def throttle503World : Nat → ReqInfo → NetEvent := fun n _ =>
  if n == 0 then .resp 503 none else .resp 200 none

def c5w2State : SState :=
  { disable_wishart := false, cache := [], rt := mkRT throttle503World }

theorem claim_C5_witness :
    request_with_retry c5wState (CLASSYFIRE_ENTITY_URL "AAA") "GET" none =
      (some ⟨503, none⟩,
       { c5wState with
         rt := { c5wState.rt with
                 counter := 2
                 log := [⟨"GET", CLASSYFIRE_ENTITY_URL "AAA", none⟩,
                         ⟨"GET", CLASSYFIRE_ENTITY_URL "AAA", none⟩] } }) ∧
    request_with_retry c5w2State (CLASSYFIRE_ENTITY_URL "AAA") "GET" none =
      (some ⟨200, none⟩,
       { c5w2State with
         rt := { c5w2State.rt with
                 counter := 2
                 log := [⟨"GET", CLASSYFIRE_ENTITY_URL "AAA", none⟩,
                         ⟨"GET", CLASSYFIRE_ENTITY_URL "AAA", none⟩] } }) ∧
    (query_npclassifier c5wState "C").2.rt.log.length = 1 :=
  have h := claim_C5_amended_retry c5wState (CLASSYFIRE_ENTITY_URL "AAA") "GET" none
    429 503 none none "x" "C"
  have h2 := claim_C5_amended_retry c5w2State (CLASSYFIRE_ENTITY_URL "AAA") "GET" none
    503 200 none none "x" "C"
  ⟨h.1 (Or.inl rfl) rfl rfl, h2.1 (Or.inr rfl) rfl rfl, h.2.2⟩

/-- A successful InChIKey lookup only ever returns a valid result. -/
lemma try_ik_result_valid (st : SState) (ik : String) (r : JVal)
    (h : (try_classyfire_by_inchikey st ik).1 = some r) :
    is_valid_classification (some r) = true := by
  unfold try_classyfire_by_inchikey at h
  split at h
  · next hv =>
      simp only at h
      rw [h] at hv
      exact hv
  · next hv =>
      split at h
      next result st1 heq =>
        split at h
        · next hval =>
            split at h
            · next j =>
                simp only at h
                rw [← h]
                exact hval
            · simp at h
        · simp at h

/-- A successful InChIKey lookup leaves the result in the cache under the
`ik:`-prefixed key. -/
lemma try_ik_some_cached (st : SState) (ik : String) (r : JVal) (st' : SState)
    (h : try_classyfire_by_inchikey st ik = (some r, st')) :
    cacheGet st'.cache ("ik:" ++ ik) = some r := by
  unfold try_classyfire_by_inchikey at h
  split at h
  · next hv =>
      have h1 : cacheGet st.cache ("ik:" ++ ik) = some r := congrArg Prod.fst h
      have h2 : st = st' := congrArg Prod.snd h
      rw [← h2]
      exact h1
  · next hv =>
      split at h
      next result st1 heq =>
        split at h
        · next hval =>
            split at h
            · next j =>
                have h1 : some j = some r := congrArg Prod.fst h
                have h2 : ({ st1 with cache := cachePut st1.cache ("ik:" ++ ik) j } : SState)
                    = st' := congrArg Prod.snd h
                rw [← h2]
                show cacheGet (cachePut st1.cache ("ik:" ++ ik) j) ("ik:" ++ ik) = some r
                rw [cacheGet_cachePut_self]
                exact h1
            · exact absurd (congrArg Prod.fst h) (by simp)
        · exact absurd (congrArg Prod.fst h) (by simp)

/-- With a valid entry already cached, the InChIKey lookup is a pure
cache hit: it returns the entry and leaves the state untouched. -/
lemma try_ik_cached_hit (st : SState) (ik : String) (r : JVal)
    (hc : cacheGet st.cache ("ik:" ++ ik) = some r)
    (hv : is_valid_classification (some r) = true) :
    try_classyfire_by_inchikey st ik = (some r, st) := by
  unfold try_classyfire_by_inchikey
  rw [hc, hv]
  simp

/-- When the InChIKey lookup succeeds, `get_compound_classes` returns its
result unchanged. -/
lemma service_of_try_ik (st : SState) (ik sm : Option String) (r : JVal) (st' : SState)
    (hik : pyStrip (ik.getD "") ≠ "")
    (h : try_classyfire_by_inchikey st (pyStrip (ik.getD "")) = (some r, st'))
    (hval : is_valid_classification (some r) = true) :
    service_get_compound_classes st ik sm = (some r, st') := by
  unfold service_get_compound_classes
  rw [if_pos (by simp [bne_iff_ne, hik]), h]
  simp only [pyTruthyOpt, valid_truthy r hval, if_true]

/-- C7 (amended): resolving the same InChIKey twice against an unchanged
world returns the identical ClassificationResult both times, and the
second resolve performs no remote request at all — it is served from the
cache and leaves the service state (including the request log) exactly
unchanged.  All remote requests happen during the first resolve (of
which there can be more than one: retries and the mirror fallback). -/
theorem claim_C7_amended_cache_idempotence (st : SState) (ik sm : Option String)
    (r : JVal) (st' : SState)
    (hik : pyStrip (ik.getD "") ≠ "")
    (h1 : try_classyfire_by_inchikey st (pyStrip (ik.getD "")) = (some r, st')) :
    service_get_compound_classes st ik sm = (some r, st') ∧
    service_get_compound_classes st' ik sm = (some r, st') := by
  have hval : is_valid_classification (some r) = true :=
    try_ik_result_valid st (pyStrip (ik.getD "")) r (by rw [h1])
  have hcache : cacheGet st'.cache ("ik:" ++ pyStrip (ik.getD "")) = some r :=
    try_ik_some_cached st (pyStrip (ik.getD "")) r st' h1
  have h2 : try_classyfire_by_inchikey st' (pyStrip (ik.getD "")) = (some r, st') :=
    try_ik_cached_hit st' (pyStrip (ik.getD "")) r hcache hval
  exact ⟨service_of_try_ik st ik sm r st' hik h1 hval,
         service_of_try_ik st' ik sm r st' hik h2 hval⟩

theorem claim_C7_witness :
    service_get_compound_classes c7State (some "IK1") none =
      (some entNorm, (try_classyfire_by_inchikey c7State "IK1").2) ∧
    service_get_compound_classes (try_classyfire_by_inchikey c7State "IK1").2
        (some "IK1") none =
      (some entNorm, (try_classyfire_by_inchikey c7State "IK1").2) :=
  claim_C7_amended_cache_idempotence c7State (some "IK1") none entNorm
    (try_classyfire_by_inchikey c7State "IK1").2 (by decide) rfl

/-- C8: for an InChIKey lookup with a cold cache, when the primary entity
endpoint responds 200 with a body whose normalization is invalid but the
mirror host responds 200 with a body normalizing to a valid result `r`,
the resolver returns `r` and stores it in the cache under the
`ik:`-prefixed key; the request log shows exactly the primary-then-mirror
requests, and the same key is not re-queried remotely afterwards: a
second lookup returns `r` from the cache with the state (and so the
request log) unchanged. -/
theorem claim_C8_mirror_fallback (st : SState) (ik : String) (bodyP bodyM r : JVal)
    (hdw : st.disable_wishart = false)
    (hmiss : is_valid_classification (cacheGet st.cache ("ik:" ++ ik)) = false)
    (hw1 : st.rt.world st.rt.counter ⟨"GET", CLASSYFIRE_ENTITY_URL ik, none⟩ =
      .resp 200 (some bodyP))
    (hw2 : st.rt.world (st.rt.counter + 1) ⟨"GET", FIEHNLAB_MIRROR ik, none⟩ =
      .resp 200 (some bodyM))
    (hinv : is_valid_classification (normalize_chemont_entity bodyP) = false)
    (hnorm : normalize_chemont_entity bodyM = some r)
    (hval : is_valid_classification (some r) = true) :
    ∃ st' : SState,
      try_classyfire_by_inchikey st ik = (some r, st') ∧
      cacheGet st'.cache ("ik:" ++ ik) = some r ∧
      st'.rt.log = st.rt.log ++ [⟨"GET", CLASSYFIRE_ENTITY_URL ik, none⟩] ++
        [⟨"GET", FIEHNLAB_MIRROR ik, none⟩] ∧
      try_classyfire_by_inchikey st' ik = (some r, st') := by
  have hq : query_classyfire_entities st ik =
      (some r,
       { st with rt := { st.rt with
                         counter := st.rt.counter + 1 + 1
                         log := st.rt.log ++ [⟨"GET", CLASSYFIRE_ENTITY_URL ik, none⟩]
                           ++ [⟨"GET", FIEHNLAB_MIRROR ik, none⟩] } }) := by
    unfold query_classyfire_entities
    rw [hdw]
    simp only [Bool.false_eq_true, if_false, List.cons_append, List.nil_append]
    simp only [entityLoop, request_with_retry, doRequest, hw1, hw2]
    simp [HResp.ok, hdw, hw2, hinv, hnorm, hval]
  have htry : try_classyfire_by_inchikey st ik =
      (some r,
       { st with
         cache := cachePut st.cache ("ik:" ++ ik) r
         rt := { st.rt with
                 counter := st.rt.counter + 1 + 1
                 log := st.rt.log ++ [⟨"GET", CLASSYFIRE_ENTITY_URL ik, none⟩]
                   ++ [⟨"GET", FIEHNLAB_MIRROR ik, none⟩] } }) := by
    unfold try_classyfire_by_inchikey
    rw [hmiss, hq]
    simp [hval]
  refine ⟨_, htry, ?_, ?_, ?_⟩
  · exact cacheGet_cachePut_self st.cache ("ik:" ++ ik) r
  · rfl
  · exact try_ik_cached_hit _ ik r (cacheGet_cachePut_self st.cache ("ik:" ++ ik) r) hval

theorem claim_C8_witness :
    ∃ st' : SState,
      try_classyfire_by_inchikey c8State "IK1" = (some entNorm, st') ∧
      cacheGet st'.cache ("ik:" ++ "IK1") = some entNorm ∧
      st'.rt.log = c8State.rt.log ++ [⟨"GET", CLASSYFIRE_ENTITY_URL "IK1", none⟩] ++
        [⟨"GET", FIEHNLAB_MIRROR "IK1", none⟩] ∧
      try_classyfire_by_inchikey st' "IK1" = (some entNorm, st') :=
  claim_C8_mirror_fallback c8State "IK1" entBodyInvalid entBodyKingdom entNorm
    rfl rfl rfl rfl rfl rfl rfl

/-- C9: with no InChIKey, SMILES "CCO", the primary provider disabled for
the run and a cold cache, the resolver skips the primary provider
entirely (the request log shows only the one NPClassifier request) and,
when the secondary provider answers
`{"superclass": ["Alcohol"], "pathway": ["Amino acids"]}`, returns a
ClassificationResult with superclass "Alcohol", direct_parent
"Amino acids" and source "NPClassifier"; in general the secondary
normalizer maps the pathway field to direct_parent and takes the first
element (or the empty string, when the field is missing) of the
array-valued superclass/class fields. -/
theorem claim_C9_secondary_provider (st : SState)
    (hdw : st.disable_wishart = true)
    (hmiss : is_valid_classification (cacheGet st.cache "smiles:CCO") = false)
    (hw : st.rt.world st.rt.counter ⟨"GET", NPCLASSIFIER_URL "CCO", none⟩ =
      .resp 200 (some npcBodyC9)) :
    service_get_compound_classes st none (some "CCO") =
      (some npcResultC9,
       { st with rt := { st.rt with
                         counter := st.rt.counter + 1
                         log := st.rt.log ++ [⟨"GET", NPCLASSIFIER_URL "CCO", none⟩] } }) ∧
    (∀ (npc : JVal) (a c : String) (u w : List JVal),
      npc.truthy = true →
      npc.get "superclass" = .arr (.str a :: u) →
      npc.get "class" = .null →
      npc.get "pathway" = .arr (.str c :: w) →
      normalize_npclassifier npc = some (JVal.obj
        [("ontology", .str "NPClassifier"), ("kingdom", .str ""),
         ("superclass", .str a), ("class", .str ""), ("subclass", .str ""),
         ("direct_parent", .str c), ("ontology_id", .str ""),
         ("source", .str "NPClassifier")])) := by
  constructor
  · unfold service_get_compound_classes try_smiles_classification query_npclassifier doRequest
    simp only [show pyStrip ((none : Option String).getD "") = "" from rfl,
      show pyStrip ((some "CCO" : Option String).getD "") = "CCO" from rfl,
      show ("smiles:" ++ "CCO" : String) = "smiles:CCO" from rfl, hmiss, hdw, hw,
      show normalize_npclassifier npcBodyC9 = some npcResultC9 from rfl]
    simp [HResp.ok, pyTruthyOpt, JVal.truthy, npcResultC9]
  · intro npc a c u w ht hsup hcls hpw
    unfold normalize_npclassifier
    rw [ht]
    simp [hsup, hcls, hpw, pyOr, jIndex0, JVal.truthy]

theorem claim_C9_witness :
    service_get_compound_classes c9State none (some "CCO") =
      (some npcResultC9,
       { c9State with
         rt := { c9State.rt with
                 counter := 1
                 log := [⟨"GET", NPCLASSIFIER_URL "CCO", none⟩] } }) ∧
    normalize_npclassifier npcBodyC9 = some npcResultC9 :=
  have h := claim_C9_secondary_provider c9State rfl rfl rfl
  ⟨h.1, h.2 npcBodyC9 "Alcohol" "Amino acids" [] [] rfl rfl rfl rfl⟩

/-- The InChIKey lookup preserves cache validity. -/
lemma try_ik_cacheAllValid (st : SState) (ik : String) (hc : cacheAllValid st.cache) :
    cacheAllValid (try_classyfire_by_inchikey st ik).2.cache := by
  unfold try_classyfire_by_inchikey
  split
  · exact hc
  · split
    next result st1 heq =>
      have hc1 : st1.cache = st.cache := by
        have h := query_classyfire_entities_cache st ik
        rw [heq] at h
        exact h
      split
      · next hval =>
          split
          · next j =>
              show cacheAllValid (cachePut st1.cache ("ik:" ++ ik) j)
              rw [hc1]
              exact cachePut_allValid _ _ _ hc hval
          · show cacheAllValid st1.cache
            rw [hc1]
            exact hc
      · show cacheAllValid st1.cache
        rw [hc1]
        exact hc

/-- The SMILES classification preserves cache validity. -/
lemma try_smiles_cacheAllValid (st : SState) (sm : String) (hc : cacheAllValid st.cache) :
    cacheAllValid (try_smiles_classification st sm).2.cache := by
  unfold try_smiles_classification
  split
  · exact hc
  · split
    · split
      next result st1 heq =>
        have hc1 : st1.cache = st.cache := by
          have h := query_classyfire_by_smiles_cache st sm
          rw [heq] at h
          exact h
        split
        · next hval =>
            split
            · next j =>
                show cacheAllValid (cachePut st1.cache ("smiles:" ++ sm) j)
                rw [hc1]
                exact cachePut_allValid _ _ _ hc hval
            · show cacheAllValid st1.cache
              rw [hc1]
              exact hc
        · show cacheAllValid (query_npclassifier st1 sm).2.cache
          rw [query_npclassifier_cache, hc1]
          exact hc
    · show cacheAllValid (query_npclassifier st sm).2.cache
      rw [query_npclassifier_cache]
      exact hc

/-- A full resolve preserves cache validity. -/
lemma service_cacheAllValid (st : SState) (ik sm : Option String)
    (hc : cacheAllValid st.cache) :
    cacheAllValid (service_get_compound_classes st ik sm).2.cache := by
  unfold service_get_compound_classes
  split
  · split
    next result st1 heq =>
      have h1 : cacheAllValid st1.cache := by
        have h := try_ik_cacheAllValid st (pyStrip (ik.getD "")) hc
        rw [heq] at h
        exact h
      split
      · exact h1
      · split
        · split
          next result2 st2 heq2 =>
            have h2 : cacheAllValid st2.cache := by
              have h := try_smiles_cacheAllValid st1 (pyStrip (sm.getD "")) h1
              rw [heq2] at h
              exact h
            split
            · exact h2
            · exact h2
        · exact h1
  · split
    · split
      next result2 st2 heq2 =>
        have h2 : cacheAllValid st2.cache := by
          have h := try_smiles_cacheAllValid st (pyStrip (sm.getD "")) hc
          rw [heq2] at h
          exact h
        split
        · exact h2
        · exact h2
    · exact hc

/-- C1 (amended): invalid results are never cached — a resolve keeps
every cache entry valid — and a result returned by the ClassyFire
InChIKey path is always valid; but the NPClassifier fallback result is
returned to the caller without validation and can have all five of
kingdom, superclass, class, subclass and direct_parent empty (see the
counterexample). -/
theorem claim_C1_amended_validity (st : SState) (ik sm : Option String)
    (iks : String) (r : JVal) (hc : cacheAllValid st.cache) :
    cacheAllValid (service_get_compound_classes st ik sm).2.cache ∧
    ((try_classyfire_by_inchikey st iks).1 = some r →
      is_valid_classification (some r) = true) :=
  ⟨service_cacheAllValid st ik sm hc, fun h => try_ik_result_valid st iks r h⟩

theorem claim_C1_witness :
    cacheAllValid (service_get_compound_classes c7State (some "IK1") none).2.cache ∧
    is_valid_classification (some entNorm) = true :=
  have h := claim_C1_amended_validity c7State (some "IK1") none "IK1" entNorm
    (by intro kv hkv; simp [c7State, mkRT] at hkv)
  ⟨h.1, h.2 rfl⟩

end Steban
